import Mathlib

/-!
# LiveMutex: a recursive mutex with live deadlock-danger detection

Shallow embedding of `src/livemutex.h`.

* A `ThreadData*` is a `ThreadId`, a `LiveMutex*` is a `MutexId`, `nullptr` is `none`.
* `unsigned int` is a `Nat` kept below `2 ^ 32`; `++` and `--` wrap.
* Every method is a function of the whole shared state.  A call runs alone
  (no other thread moves while it runs), so a busy-wait whose condition holds
  when it is reached can never end: the call then `spins` in that state.
-/

namespace Live

abbrev ThreadId := Nat
abbrev MutexId := Nat

/-- Modulus of `unsigned int` arithmetic. -/
def UINT_MOD : Nat := 4294967296

/-- The `++` of an `unsigned int`. -/
def uincr (n : Nat) : Nat := (n + 1) % UINT_MOD

/-- The `--` of an `unsigned int`. -/
def udecr (n : Nat) : Nat := (n + (UINT_MOD - 1)) % UINT_MOD

/-- The `struct ThreadData` of the source (lines 39-51). -/
structure ThreadData where
  locked : Bool
  lockedMutextes : Nat
  blockedByMutex : Option MutexId
  deriving DecidableEq, Repr

/-- The data members of `class LiveMutex` (lines 37, 60, 61). -/
structure LiveMutex where
  locked : Bool
  lockedByThread : Option ThreadId
  numberOfLocks : Nat
  deriving DecidableEq, Repr

/-- The constructor `ThreadData()` (lines 45-50). -/
def ThreadData.new : ThreadData :=
  { locked := false, lockedMutextes := 0, blockedByMutex := none }

/-- The constructor `LiveMutex()` (lines 64-69). -/
def LiveMutex.new : LiveMutex :=
  { locked := false, lockedByThread := none, numberOfLocks := 0 }

/-- The shared memory: one thread record per thread, and the mutex objects. -/
structure State where
  threads : ThreadId → ThreadData
  mutexes : MutexId → LiveMutex

/-- Every thread record and every mutex freshly constructed. -/
def State.init : State :=
  { threads := fun _ => ThreadData.new, mutexes := fun _ => LiveMutex.new }

/-- Assignment to `t->locked`. -/
def State.setThreadLocked (s : State) (t : ThreadId) (b : Bool) : State :=
  { s with threads := fun i => if i = t then { s.threads t with locked := b } else s.threads i }

/-- Assignment to `t->lockedMutextes`. -/
def State.setLockedMutextes (s : State) (t : ThreadId) (n : Nat) : State :=
  { s with threads := fun i =>
      if i = t then { s.threads t with lockedMutextes := n } else s.threads i }

/-- Assignment to `t->blockedByMutex`. -/
def State.setBlockedByMutex (s : State) (t : ThreadId) (m : Option MutexId) : State :=
  { s with threads := fun i =>
      if i = t then { s.threads t with blockedByMutex := m } else s.threads i }

/-- Assignment to `m->locked`. -/
def State.setLocked (s : State) (m : MutexId) (b : Bool) : State :=
  { s with mutexes := fun i => if i = m then { s.mutexes m with locked := b } else s.mutexes i }

/-- Assignment to `m->lockedByThread`. -/
def State.setLockedByThread (s : State) (m : MutexId) (o : Option ThreadId) : State :=
  { s with mutexes := fun i =>
      if i = m then { s.mutexes m with lockedByThread := o } else s.mutexes i }

/-- Assignment to `m->numberOfLocks`. -/
def State.setNumberOfLocks (s : State) (m : MutexId) (n : Nat) : State :=
  { s with mutexes := fun i =>
      if i = m then { s.mutexes m with numberOfLocks := n } else s.mutexes i }

/-- What a call does when it runs alone. -/
inductive Outcome (α : Type) where
  /-- The call returned `value`, leaving the memory `after`. -/
  | returned (value : α) (after : State)
  /-- The call busy-waits for ever in the memory `stuck`. -/
  | spins (stuck : State)
  /-- The loop budget of the model ran out. -/
  | outOfFuel

/-- The value a call returned, if it returned. -/
def Outcome.value? {α : Type} : Outcome α → Option α
  | .returned v _ => some v
  | .spins _ => none
  | .outOfFuel => none

/-- The memory in which a call returned or in which it spins. -/
def Outcome.state? {α : Type} : Outcome α → Option State
  | .returned _ s => some s
  | .spins s => some s
  | .outOfFuel => none

/-- Whether the call busy-waits for ever. -/
def Outcome.isSpin {α : Type} : Outcome α → Bool
  | .spins _ => true
  | _ => false

namespace LiveMutex

/-- The method `isLocked` (lines 71-74). -/
def isLocked (this : MutexId) (s : State) : Bool :=
  decide ((s.mutexes this).numberOfLocks > 0)

/-- The method `numOfLocks` (lines 76-79). -/
def numOfLocks (this : MutexId) (s : State) : Nat :=
  (s.mutexes this).numberOfLocks

/-- The method `tryLock` (lines 81-112), called by thread `self` on mutex `this`. -/
def tryLock (self : ThreadId) (this : MutexId) (s : State) : Outcome Bool :=
  -- line 86: while (threadData().locked.exchange(true)) {}
  if (s.threads self).locked then .spins s else
  let s := s.setThreadLocked self true
  -- line 89: while (locked.exchange(true)) {}
  if (s.mutexes this).locked then .spins s else
  let s := s.setLocked this true
  -- line 92
  match (s.mutexes this).lockedByThread with
  | some owner =>
    -- line 93
    if owner = self then
      let s := s.setNumberOfLocks this (uincr (s.mutexes this).numberOfLocks)
      let s := s.setThreadLocked self false
      let s := s.setLocked this false
      .returned true s
    else
      -- lines 101-104
      let s := s.setLocked this false
      let s := s.setThreadLocked self false
      .returned false s
  | none =>
    -- lines 107-111
    let s := s.setLockedByThread this (some self)
    let s := s.setLocked this false
    let s := s.setBlockedByMutex self none
    .returned true s

/-- The method `unlock` (lines 232-248), called by thread `self` on mutex `this`. -/
def unlock (self : ThreadId) (this : MutexId) (s : State) : Outcome Unit :=
  -- line 237: while (locked.exchange(true)) {}
  if (s.mutexes this).locked then .spins s else
  let s := s.setLocked this true
  -- line 240
  let s := s.setLockedByThread this none
  -- line 241
  let s := s.setNumberOfLocks this (udecr (s.mutexes this).numberOfLocks)
  -- lines 243-245
  let s :=
    if (s.mutexes this).numberOfLocks = 0 then
      s.setLockedMutextes self (udecr (s.threads self).lockedMutextes)
    else s
  -- line 247
  .returned () (s.setLocked this false)

/-- The three stores that precede every `return false` of the traversal
(lines 186-188, 207-209, 221-223). -/
def giveUp (self : ThreadId) (currentMutex : MutexId) (currentThread : ThreadId)
    (s : State) : State :=
  let s := s.setLocked currentMutex false
  let s := s.setThreadLocked currentThread false
  s.setThreadLocked self false

/-- The traversal loop `while (true)` of `lock` (lines 181-227).  One unit of
`fuel` is one iteration; `threads` is the `std::set<ThreadData*>`. -/
def traverse (self : ThreadId) (this : MutexId) :
    Nat → MutexId → ThreadId → List ThreadId → State → Outcome Bool
  | 0, _, _, _, _ => .outOfFuel
  | fuel + 1, currentMutex, currentThread, threads, s =>
    -- line 182: ThreadData *nextThread = lockedByThread;
    match (s.mutexes this).lockedByThread with
    | none =>
      -- lines 185-190, nextThread==nullptr
      .returned false (giveUp self currentMutex currentThread s)
    | some nextThread =>
      -- lines 185-190, threads.count(nextThread)>0
      if nextThread ∈ threads then
        .returned false (giveUp self currentMutex currentThread s)
      else
        -- line 193
        let threads := nextThread :: threads
        -- line 195: while (nextThread->locked.exchange(true)) {}
        if (s.threads nextThread).locked then .spins s else
        let s := s.setThreadLocked nextThread true
        -- lines 198-200
        let s := if currentThread ≠ self then s.setThreadLocked currentThread false else s
        -- line 202
        let currentThread := nextThread
        -- line 204
        match (s.threads currentThread).blockedByMutex with
        | none =>
          -- lines 206-211
          .returned false (giveUp self currentMutex currentThread s)
        | some nextMutex =>
          -- line 214: while (nextMutex->locked.exchange(true)) {}
          if (s.mutexes nextMutex).locked then .spins s else
          let s := s.setLocked nextMutex true
          -- lines 217-218
          let s := s.setLocked currentMutex false
          let currentMutex := nextMutex
          -- line 220
          match (s.mutexes currentMutex).lockedByThread with
          | none =>
            -- lines 221-225
            .returned false (giveUp self currentMutex currentThread s)
          | some _ => traverse self this fuel currentMutex currentThread threads s

/-- The method `lock` (lines 122-230), called by thread `self` on mutex `this`.
No path through the body of the outer `while (true)` (line 127) reaches its end:
each one returns, or stays inside one of the inner loops, none of which has a
`break`.  The body therefore runs once; `fuel` bounds the traversal loop. -/
def lock (fuel : Nat) (self : ThreadId) (this : MutexId) (s : State) : Outcome Bool :=
  -- line 124: while (threadData().locked.exchange(true)) {}
  if (s.threads self).locked then .spins s else
  let s := s.setThreadLocked self true
  -- line 128: while (locked.exchange(true)) {}
  if (s.mutexes this).locked then .spins s else
  let s := s.setLocked this true
  match (s.mutexes this).lockedByThread with
  | none =>
    -- lines 131-138
    let s := s.setLockedByThread this (some self)
    let s := s.setNumberOfLocks this (uincr (s.mutexes this).numberOfLocks)
    let s := s.setLockedMutextes self (uincr (s.threads self).lockedMutextes)
    let s := s.setLocked this false
    let s := s.setThreadLocked self false
    .returned true s
  | some owner =>
    if owner = self then
      -- lines 139-146
      let s := s.setNumberOfLocks this (uincr (s.mutexes this).numberOfLocks)
      let s := s.setLockedMutextes self (uincr (s.threads self).lockedMutextes)
      let s := s.setLocked this false
      let s := s.setThreadLocked self false
      .returned true s
    else if (s.threads self).lockedMutextes = 0 then
      -- lines 149-169; the body of the `while (true)` of line 151 ends in `return`
      -- line 152
      let s := s.setLocked this false
      -- line 154: while (lockedByThread!=nullptr) {}
      if (s.mutexes this).lockedByThread ≠ none then .spins s else
      -- line 157
      let s := s.setBlockedByMutex self (some this)
      -- line 159: while (locked.exchange(true)) {}
      if (s.mutexes this).locked then .spins s else
      let s := s.setLocked this true
      -- lines 162-167
      let s := s.setLockedByThread this (some self)
      let s := s.setLockedMutextes self (uincr (s.threads self).lockedMutextes)
      let s := s.setNumberOfLocks this (uincr (s.mutexes this).numberOfLocks)
      let s := s.setLocked this false
      .returned true s
    else
      -- lines 176-179, then the loop of lines 181-227
      traverse self this fuel this self [] s

end LiveMutex

/-! ## Calls run one after the other -/

/-- The three operations of a mutex that a thread can call. -/
inductive Op where
  | tryLock
  | lock
  | unlock
  deriving DecidableEq, Repr

/-- A call of `op` by `thread` on `mutex`. -/
structure Call where
  thread : ThreadId
  op : Op
  mutex : MutexId
  deriving DecidableEq, Repr

/-- A call that returned, with the boolean it returned (`none` for `unlock`,
which returns `void`). -/
structure Event where
  call : Call
  result : Option Bool
  deriving DecidableEq, Repr

/-- One call, run alone from the memory `s`. -/
def exec (fuel : Nat) (c : Call) (s : State) : Outcome (Option Bool) :=
  match c.op with
  | .tryLock =>
    match LiveMutex.tryLock c.thread c.mutex s with
    | .returned b s' => .returned (some b) s'
    | .spins s' => .spins s'
    | .outOfFuel => .outOfFuel
  | .lock =>
    match LiveMutex.lock fuel c.thread c.mutex s with
    | .returned b s' => .returned (some b) s'
    | .spins s' => .spins s'
    | .outOfFuel => .outOfFuel
  | .unlock =>
    match LiveMutex.unlock c.thread c.mutex s with
    | .returned _ s' => .returned none s'
    | .spins s' => .spins s'
    | .outOfFuel => .outOfFuel

/-- The calls of `cs` run one after the other, each one alone, from memory `s`:
the events in order and the final memory, or `none` when one of the calls does
not return. -/
def run (fuel : Nat) : List Call → State → Option (List Event × State)
  | [], s => some ([], s)
  | c :: cs, s =>
    match exec fuel c s with
    | .returned r s' =>
      match run fuel cs s' with
      | some (es, s'') => some ({ call := c, result := r } :: es, s'')
      | none => none
    | .spins _ => none
    | .outOfFuel => none

/-- Number of successful acquisitions (`tryLock` or `lock` that returned `true`)
of mutex `m` by thread `t` among the events `es`. -/
def acquisitions (es : List Event) (t : ThreadId) (m : MutexId) : Nat :=
  (es.filter fun e =>
    decide (e.call.thread = t) && decide (e.call.mutex = m) &&
      decide (e.call.op ≠ Op.unlock) && decide (e.result = some true)).length

/-- Number of `unlock` calls on mutex `m` by thread `t` among the events `es`. -/
def releases (es : List Event) (t : ThreadId) (m : MutexId) : Nat :=
  (es.filter fun e =>
    decide (e.call.thread = t) && decide (e.call.mutex = m) &&
      decide (e.call.op = Op.unlock)).length

/-- The release discipline: every `unlock` is called by a thread that, at that
point, has more successful acquisitions than releases on that mutex.  The
events `before` have already happened. -/
def disciplined (before : List Event) : List Event → Bool
  | [] => true
  | e :: es =>
    (decide (e.call.op ≠ Op.unlock) ||
      decide (releases before e.call.thread e.call.mutex
        < acquisitions before e.call.thread e.call.mutex)) &&
    disciplined (before ++ [e]) es

/-! ## The properties of the specification, in its own words -/

/-- The wait-for chain of the specification (§4.2 b): from thread `t`, ask which
mutex `t` is blocked on and who owns that mutex, keeping the thread records
`visited` so far.  The answer is `true` when, within `n` links, the chain
reaches a thread record that was already visited; a thread that is not blocked
or a mutex without owner ends the chain. -/
def chainRevisits (s : State) : Nat → ThreadId → List ThreadId → Bool
  | 0, _, _ => false
  | n + 1, t, visited =>
    if t ∈ visited then true
    else
      match (s.threads t).blockedByMutex with
      | none => false
      | some m =>
        match (s.mutexes m).lockedByThread with
        | none => false
        | some u => chainRevisits s n u (t :: visited)

/-- The wait-for chain that starts at the owner of mutex `m` revisits a thread
record within `n` links. -/
def cycleDetected (s : State) (n : Nat) (m : MutexId) : Bool :=
  match (s.mutexes m).lockedByThread with
  | none => false
  | some u => chainRevisits s n u []

/-- The lock invariant of the specification (§3): `depth > 0 ⇔ owner ≠ none`. -/
def LockInvariant (s : State) (m : MutexId) : Prop :=
  0 < (s.mutexes m).numberOfLocks ↔ (s.mutexes m).lockedByThread ≠ none

instance (s : State) (m : MutexId) : Decidable (LockInvariant s m) := by
  unfold LockInvariant; infer_instance

/-- No micro-spinlock of thread record `t` or of mutex `m` is set. -/
def Quiet (s : State) (t : ThreadId) (m : MutexId) : Prop :=
  (s.threads t).locked = false ∧ (s.mutexes m).locked = false

instance (s : State) (t : ThreadId) (m : MutexId) : Decidable (Quiet s t m) := by
  unfold Quiet; infer_instance

/-- Same owner and same depth of every mutex in `s'` as in `s`. -/
def SameLocks (s s' : State) : Prop :=
  ∀ j, (s'.mutexes j).lockedByThread = (s.mutexes j).lockedByThread ∧
    (s'.mutexes j).numberOfLocks = (s.mutexes j).numberOfLocks

/-- The memory of the cross-acquire scenario: thread 0 owns mutex 0 and thread 1
owns mutex 1, each with depth 1 and `lockedMutextes` 1; nobody is blocked and no
micro-spinlock is set. -/
def crossState : State :=
  { threads := fun t =>
      if t = 0 ∨ t = 1 then { locked := false, lockedMutextes := 1, blockedByMutex := none }
      else ThreadData.new
    mutexes := fun m =>
      if m = 0 then { locked := false, lockedByThread := some 0, numberOfLocks := 1 }
      else if m = 1 then { locked := false, lockedByThread := some 1, numberOfLocks := 1 }
      else LiveMutex.new }

/-! ## `lock` statement by statement, for interleaved executions

The calls of several threads interleave at the granularity of source
statements.  A program point is named after the source line it is about to
execute. -/

/-- The program points of `lock` (lines 122-230): `l124` is "about to execute
line 124".  `idle` is a thread that is not inside `lock`; `doneTrue` and
`doneFalse` are a thread whose call has returned `true`, respectively `false`. -/
inductive Pc where
  | idle
  | l124 | l128 | l131 | l132 | l133 | l134 | l135 | l136 | l138
  | l139 | l141 | l142 | l143 | l144 | l146
  | l149 | l152 | l154 | l157 | l159 | l162 | l163 | l164 | l165 | l167
  | l176 | l182 | l185 | l186 | l187 | l188 | l190
  | l193 | l195 | l198 | l202 | l204 | l206 | l207 | l208 | l209 | l211
  | l214 | l217 | l218 | l220 | l221 | l222 | l223 | l225
  | doneTrue | doneFalse
  deriving DecidableEq, Repr

/-- The activation record of one call of `lock`: the program point, the mutex
`this`, and the local variables of lines 176-179, 182 and 204. -/
structure Frame where
  pc : Pc
  this : MutexId
  currentMutex : MutexId
  currentThread : ThreadId
  threads : List ThreadId
  nextThread : Option ThreadId
  nextMutex : Option MutexId
  deriving DecidableEq, Repr

/-- The frame of a thread that is not inside `lock`. -/
def Frame.idle : Frame :=
  { pc := .idle, this := 0, currentMutex := 0, currentThread := 0, threads := [],
    nextThread := none, nextMutex := none }

/-- The shared memory together with the frame of every thread. -/
structure Config where
  mem : State
  frames : ThreadId → Frame

/-- Replaces the frame of thread `t`. -/
def Config.setFrame (c : Config) (t : ThreadId) (f : Frame) : Config :=
  { c with frames := fun i => if i = t then f else c.frames i }

/-- Moves thread `t` to program point `pc`, with the memory `mem`. -/
def Config.goto (c : Config) (t : ThreadId) (pc : Pc) (mem : State) : Config :=
  { mem := mem, frames := fun i => if i = t then { c.frames t with pc := pc } else c.frames i }

/-- Thread `t` calls `lock` on mutex `m`: it is about to execute line 124. -/
def lockCall (t : ThreadId) (m : MutexId) (c : Config) : Config :=
  c.setFrame t { Frame.idle with pc := .l124, this := m }

/-- One statement of `lock` executed by thread `self`.  A busy-wait whose
condition holds leaves the configuration as it is. -/
def lockStep (self : ThreadId) (c : Config) : Config :=
  let f := c.frames self
  let s := c.mem
  let this := f.this
  match f.pc with
  | .idle => c
  | .doneTrue => c
  | .doneFalse => c
  -- line 124: while (threadData().locked.exchange(true)) {}
  | .l124 => if (s.threads self).locked then c else c.goto self .l128 (s.setThreadLocked self true)
  -- line 128: while (locked.exchange(true)) {}
  | .l128 => if (s.mutexes this).locked then c else c.goto self .l131 (s.setLocked this true)
  -- line 131: if (lockedByThread==nullptr)
  | .l131 => if (s.mutexes this).lockedByThread = none then c.goto self .l132 s
             else c.goto self .l139 s
  | .l132 => c.goto self .l133 (s.setLockedByThread this (some self))
  | .l133 => c.goto self .l134 (s.setNumberOfLocks this (uincr (s.mutexes this).numberOfLocks))
  | .l134 => c.goto self .l135
      (s.setLockedMutextes self (uincr (s.threads self).lockedMutextes))
  | .l135 => c.goto self .l136 (s.setLocked this false)
  | .l136 => c.goto self .l138 (s.setThreadLocked self false)
  | .l138 => c.goto self .doneTrue s
  -- line 139: else if (lockedByThread==&threadData())
  | .l139 => if (s.mutexes this).lockedByThread = some self then c.goto self .l141 s
             else c.goto self .l149 s
  | .l141 => c.goto self .l142 (s.setNumberOfLocks this (uincr (s.mutexes this).numberOfLocks))
  | .l142 => c.goto self .l143
      (s.setLockedMutextes self (uincr (s.threads self).lockedMutextes))
  | .l143 => c.goto self .l144 (s.setLocked this false)
  | .l144 => c.goto self .l146 (s.setThreadLocked self false)
  | .l146 => c.goto self .doneTrue s
  -- line 149: if (threadData().lockedMutextes==0)
  | .l149 => if (s.threads self).lockedMutextes = 0 then c.goto self .l152 s
             else c.goto self .l176 s
  | .l152 => c.goto self .l154 (s.setLocked this false)
  -- line 154: while (lockedByThread!=nullptr) {}
  | .l154 => if (s.mutexes this).lockedByThread ≠ none then c else c.goto self .l157 s
  | .l157 => c.goto self .l159 (s.setBlockedByMutex self (some this))
  -- line 159: while (locked.exchange(true)) {}
  | .l159 => if (s.mutexes this).locked then c else c.goto self .l162 (s.setLocked this true)
  | .l162 => c.goto self .l163 (s.setLockedByThread this (some self))
  | .l163 => c.goto self .l164
      (s.setLockedMutextes self (uincr (s.threads self).lockedMutextes))
  | .l164 => c.goto self .l165 (s.setNumberOfLocks this (uincr (s.mutexes this).numberOfLocks))
  | .l165 => c.goto self .l167 (s.setLocked this false)
  | .l167 => c.goto self .doneTrue s
  -- lines 176-179: the locals of the traversal
  | .l176 => c.setFrame self
      { f with pc := .l182, currentMutex := this, currentThread := self, threads := [] }
  -- line 182: ThreadData *nextThread = lockedByThread;
  | .l182 => c.setFrame self
      { f with pc := .l185, nextThread := (s.mutexes this).lockedByThread }
  -- line 185: if (nextThread==nullptr || threads.count(nextThread)>0)
  | .l185 =>
    match f.nextThread with
    | none => c.goto self .l186 s
    | some nt => if nt ∈ f.threads then c.goto self .l186 s else c.goto self .l193 s
  | .l186 => c.goto self .l187 (s.setLocked f.currentMutex false)
  | .l187 => c.goto self .l188 (s.setThreadLocked f.currentThread false)
  | .l188 => c.goto self .l190 (s.setThreadLocked self false)
  | .l190 => c.goto self .doneFalse s
  -- line 193: threads.insert(nextThread);
  | .l193 =>
    match f.nextThread with
    | none => c
    | some nt => c.setFrame self { f with pc := .l195, threads := nt :: f.threads }
  -- line 195: while (nextThread->locked.exchange(true)) {}
  | .l195 =>
    match f.nextThread with
    | none => c
    | some nt =>
      if (s.threads nt).locked then c else c.goto self .l198 (s.setThreadLocked nt true)
  -- lines 198-200: if (currentThread!=&threadData()) currentThread->locked = false;
  | .l198 =>
    if f.currentThread ≠ self then c.goto self .l202 (s.setThreadLocked f.currentThread false)
    else c.goto self .l202 s
  -- line 202: currentThread = nextThread;
  | .l202 =>
    match f.nextThread with
    | none => c
    | some nt => c.setFrame self { f with pc := .l204, currentThread := nt }
  -- line 204: LiveMutex *nextMutex = currentThread->blockedByMutex;
  | .l204 => c.setFrame self
      { f with pc := .l206, nextMutex := (s.threads f.currentThread).blockedByMutex }
  -- line 206: if (nextMutex==nullptr)
  | .l206 =>
    match f.nextMutex with
    | none => c.goto self .l207 s
    | some _ => c.goto self .l214 s
  | .l207 => c.goto self .l208 (s.setLocked f.currentMutex false)
  | .l208 => c.goto self .l209 (s.setThreadLocked f.currentThread false)
  | .l209 => c.goto self .l211 (s.setThreadLocked self false)
  | .l211 => c.goto self .doneFalse s
  -- line 214: while (nextMutex->locked.exchange(true)) {}
  | .l214 =>
    match f.nextMutex with
    | none => c
    | some nm =>
      if (s.mutexes nm).locked then c else c.goto self .l217 (s.setLocked nm true)
  | .l217 => c.goto self .l218 (s.setLocked f.currentMutex false)
  -- line 218: currentMutex = nextMutex;
  | .l218 =>
    match f.nextMutex with
    | none => c
    | some nm => c.setFrame self { f with pc := .l220, currentMutex := nm }
  -- line 220: if (currentMutex->lockedByThread==nullptr)
  | .l220 =>
    if (s.mutexes f.currentMutex).lockedByThread = none then c.goto self .l221 s
    else c.goto self .l182 s
  | .l221 => c.goto self .l222 (s.setLocked f.currentMutex false)
  | .l222 => c.goto self .l223 (s.setThreadLocked f.currentThread false)
  | .l223 => c.goto self .l225 (s.setThreadLocked self false)
  | .l225 => c.goto self .doneFalse s

/-- The statements of `lock` executed in the order of the schedule `σ`, which
names the thread that moves next. -/
def schedule : List ThreadId → Config → Config
  | [], c => c
  | t :: σ, c => schedule σ (lockStep t c)

/-- What the call of thread `t` has returned, if it has returned. -/
def Config.returned? (c : Config) (t : ThreadId) : Option Bool :=
  match (c.frames t).pc with
  | .doneTrue => some true
  | .doneFalse => some false
  | _ => none

/-- The cross-acquire scenario: in the memory `crossState`, thread 0 calls `lock`
on mutex 1 and thread 1 calls `lock` on mutex 0. -/
def crossConfig : Config :=
  lockCall 1 0 (lockCall 0 1 { mem := crossState, frames := fun _ => Frame.idle })

/-! ## The scoped guard -/

/-- The data members of `class LiveMutexLocker` (lines 255-256). -/
structure LiveMutexLocker where
  liveMutex : MutexId
  locked : Bool
  deriving DecidableEq

namespace LiveMutexLocker

/-- The constructor `LiveMutexLocker(liveMutex, tryBlock)` (lines 259-267), run by
thread `self`. -/
def new (fuel : Nat) (self : ThreadId) (liveMutex : MutexId) (tryBlock : Bool) (s : State) :
    Outcome LiveMutexLocker :=
  if tryBlock then
    -- line 263: locked = liveMutex.lock();
    match LiveMutex.lock fuel self liveMutex s with
    | .returned b s' => .returned { liveMutex := liveMutex, locked := b } s'
    | .spins s' => .spins s'
    | .outOfFuel => .outOfFuel
  else
    -- line 265: locked = liveMutex.tryLock();
    match LiveMutex.tryLock self liveMutex s with
    | .returned b s' => .returned { liveMutex := liveMutex, locked := b } s'
    | .spins s' => .spins s'
    | .outOfFuel => .outOfFuel

/-- The destructor `~LiveMutexLocker()` (lines 269-274), run by thread `self`. -/
def delete (self : ThreadId) (g : LiveMutexLocker) (s : State) : Outcome Unit :=
  if g.locked then LiveMutex.unlock self g.liveMutex s else .returned () s

/-- The method `hasLocked` (lines 276-279). -/
def hasLocked (g : LiveMutexLocker) : Bool := g.locked

end LiveMutexLocker

/-! ## Memories and steps of the scenarios -/

/-- No micro-spinlock at all is set: neither that of a thread record nor that
of a mutex. -/
def AllQuiet (s : State) : Prop :=
  (∀ t, (s.threads t).locked = false) ∧ ∀ m, (s.mutexes m).locked = false

/-- A memory in which every mutex is free and no micro-spinlock is set, and in
which `blockedByMutex` of thread 0 still names mutex 1. -/
def staleState : State :=
  { threads := fun t =>
      if t = 0 then { locked := false, lockedMutextes := 0, blockedByMutex := some 1 }
      else ThreadData.new
    mutexes := fun _ => LiveMutex.new }

/-- The memory after thread 1 has locked the free mutex 0 once: thread 1 owns
mutex 0 with depth 1 and has `lockedMutextes` 1, thread 0 holds nothing, nobody
is blocked and no micro-spinlock is set. -/
def heldState : State :=
  { threads := fun t =>
      if t = 1 then { locked := false, lockedMutextes := 1, blockedByMutex := none }
      else ThreadData.new
    mutexes := fun m =>
      if m = 0 then { locked := false, lockedByThread := some 1, numberOfLocks := 1 }
      else LiveMutex.new }

/-- Thread `t` runs a whole `unlock` of mutex `m` between two statements of the
other threads. -/
def unlockBetween (t : ThreadId) (m : MutexId) (c : Config) : Config :=
  match LiveMutex.unlock t m c.mem with
  | .returned _ s' => { c with mem := s' }
  | .spins _ => c
  | .outOfFuel => c

/-! ## Lemmas -/

section setters
variable (s : State) (t i : ThreadId) (m j : MutexId) (b : Bool) (n : Nat)
  (o : Option ThreadId) (q : Option MutexId)

@[simp] theorem mutexes_setThreadLocked : (s.setThreadLocked t b).mutexes = s.mutexes := rfl
@[simp] theorem mutexes_setLockedMutextes : (s.setLockedMutextes t n).mutexes = s.mutexes := rfl
@[simp] theorem mutexes_setBlockedByMutex : (s.setBlockedByMutex t q).mutexes = s.mutexes := rfl
@[simp] theorem threads_setLocked : (s.setLocked m b).threads = s.threads := rfl
@[simp] theorem threads_setLockedByThread : (s.setLockedByThread m o).threads = s.threads := rfl
@[simp] theorem threads_setNumberOfLocks : (s.setNumberOfLocks m n).threads = s.threads := rfl

@[simp] theorem locked_setThreadLocked :
    ((s.setThreadLocked t b).threads i).locked = if i = t then b else (s.threads i).locked := by
  by_cases h : i = t <;> simp [State.setThreadLocked, h]
@[simp] theorem lockedMutextes_setThreadLocked :
    ((s.setThreadLocked t b).threads i).lockedMutextes = (s.threads i).lockedMutextes := by
  by_cases h : i = t <;> simp [State.setThreadLocked, h]
@[simp] theorem blockedByMutex_setThreadLocked :
    ((s.setThreadLocked t b).threads i).blockedByMutex = (s.threads i).blockedByMutex := by
  by_cases h : i = t <;> simp [State.setThreadLocked, h]

@[simp] theorem locked_setLockedMutextes :
    ((s.setLockedMutextes t n).threads i).locked = (s.threads i).locked := by
  by_cases h : i = t <;> simp [State.setLockedMutextes, h]
@[simp] theorem lockedMutextes_setLockedMutextes :
    ((s.setLockedMutextes t n).threads i).lockedMutextes
      = if i = t then n else (s.threads i).lockedMutextes := by
  by_cases h : i = t <;> simp [State.setLockedMutextes, h]
@[simp] theorem blockedByMutex_setLockedMutextes :
    ((s.setLockedMutextes t n).threads i).blockedByMutex = (s.threads i).blockedByMutex := by
  by_cases h : i = t <;> simp [State.setLockedMutextes, h]

@[simp] theorem locked_setBlockedByMutex :
    ((s.setBlockedByMutex t q).threads i).locked = (s.threads i).locked := by
  by_cases h : i = t <;> simp [State.setBlockedByMutex, h]
@[simp] theorem lockedMutextes_setBlockedByMutex :
    ((s.setBlockedByMutex t q).threads i).lockedMutextes = (s.threads i).lockedMutextes := by
  by_cases h : i = t <;> simp [State.setBlockedByMutex, h]
@[simp] theorem blockedByMutex_setBlockedByMutex :
    ((s.setBlockedByMutex t q).threads i).blockedByMutex
      = if i = t then q else (s.threads i).blockedByMutex := by
  by_cases h : i = t <;> simp [State.setBlockedByMutex, h]

@[simp] theorem locked_setLocked :
    ((s.setLocked m b).mutexes j).locked = if j = m then b else (s.mutexes j).locked := by
  by_cases h : j = m <;> simp [State.setLocked, h]
@[simp] theorem lockedByThread_setLocked :
    ((s.setLocked m b).mutexes j).lockedByThread = (s.mutexes j).lockedByThread := by
  by_cases h : j = m <;> simp [State.setLocked, h]
@[simp] theorem numberOfLocks_setLocked :
    ((s.setLocked m b).mutexes j).numberOfLocks = (s.mutexes j).numberOfLocks := by
  by_cases h : j = m <;> simp [State.setLocked, h]

@[simp] theorem locked_setLockedByThread :
    ((s.setLockedByThread m o).mutexes j).locked = (s.mutexes j).locked := by
  by_cases h : j = m <;> simp [State.setLockedByThread, h]
@[simp] theorem lockedByThread_setLockedByThread :
    ((s.setLockedByThread m o).mutexes j).lockedByThread
      = if j = m then o else (s.mutexes j).lockedByThread := by
  by_cases h : j = m <;> simp [State.setLockedByThread, h]
@[simp] theorem numberOfLocks_setLockedByThread :
    ((s.setLockedByThread m o).mutexes j).numberOfLocks = (s.mutexes j).numberOfLocks := by
  by_cases h : j = m <;> simp [State.setLockedByThread, h]

@[simp] theorem locked_setNumberOfLocks :
    ((s.setNumberOfLocks m n).mutexes j).locked = (s.mutexes j).locked := by
  by_cases h : j = m <;> simp [State.setNumberOfLocks, h]
@[simp] theorem lockedByThread_setNumberOfLocks :
    ((s.setNumberOfLocks m n).mutexes j).lockedByThread = (s.mutexes j).lockedByThread := by
  by_cases h : j = m <;> simp [State.setNumberOfLocks, h]
@[simp] theorem numberOfLocks_setNumberOfLocks :
    ((s.setNumberOfLocks m n).mutexes j).numberOfLocks
      = if j = m then n else (s.mutexes j).numberOfLocks := by
  by_cases h : j = m <;> simp [State.setNumberOfLocks, h]

end setters

theorem traverse_sameLocks (self : ThreadId) (this : MutexId) :
    ∀ (fuel : Nat) (cm : MutexId) (ct : ThreadId) (th : List ThreadId) (s s' : State) (b : Bool),
      LiveMutex.traverse self this fuel cm ct th s = .returned b s' → SameLocks s s' := by
  intro fuel
  induction fuel with
  | zero => intro cm ct th s s' b h; simp [LiveMutex.traverse] at h
  | succ n ih =>
    intro cm ct th s s' b h
    unfold LiveMutex.traverse at h
    simp only [] at h
    repeat' split at h
    all_goals first
      | (cases h; done)
      | (cases h; intro j; simp [LiveMutex.giveUp])
      | (intro j; have hj := ih _ _ _ _ _ _ h j; simpa using hj)

theorem lock_sameLocks (fuel : Nat) (self : ThreadId) (this : MutexId) (s s' : State)
    (h : LiveMutex.lock fuel self this s = .returned false s') : SameLocks s s' := by
  unfold LiveMutex.lock at h
  simp only [] at h
  repeat' split at h
  all_goals first
    | cases h
    | (intro j; have hj := traverse_sameLocks _ _ _ _ _ _ _ _ _ h j; simpa using hj)

theorem tryLock_sameLocks (self : ThreadId) (this : MutexId) (s s' : State)
    (h : LiveMutex.tryLock self this s = .returned false s') : SameLocks s s' := by
  unfold LiveMutex.tryLock at h
  simp only [] at h
  repeat' split at h
  all_goals first
    | (cases h; intro j; simp)
    | cases h

theorem uincr_mod (c : Nat) : uincr (c % UINT_MOD) = (c + 1) % UINT_MOD := by
  unfold uincr UINT_MOD; omega

theorem udecr_mod (c : Nat) (h : 0 < c) : udecr (c % UINT_MOD) = (c - 1) % UINT_MOD := by
  unfold udecr UINT_MOD; omega

theorem lock_of_free_or_own (fuel : Nat) (T : ThreadId) (L : MutexId) (s : State)
    (hq : Quiet s T L)
    (ho : (s.mutexes L).lockedByThread = none ∨ (s.mutexes L).lockedByThread = some T) :
    ∃ s', LiveMutex.lock fuel T L s = .returned true s' ∧ Quiet s' T L ∧
      (s'.mutexes L).lockedByThread = some T ∧
      (s'.mutexes L).numberOfLocks = uincr (s.mutexes L).numberOfLocks ∧
      (s'.threads T).lockedMutextes = uincr (s.threads T).lockedMutextes := by
  obtain ⟨h1, h2⟩ := hq
  rcases ho with ho | ho <;> simp [LiveMutex.lock, h1, h2, ho, Quiet]

theorem unlock_of_quiet (T : ThreadId) (L : MutexId) (s : State)
    (hq : (s.mutexes L).locked = false) :
    ∃ s', LiveMutex.unlock T L s = .returned () s' ∧
      (s'.threads T).locked = (s.threads T).locked ∧
      (s'.mutexes L).locked = false ∧
      (s'.mutexes L).lockedByThread = none ∧
      (s'.mutexes L).numberOfLocks = udecr (s.mutexes L).numberOfLocks := by
  unfold LiveMutex.unlock
  rw [if_neg (by simp [hq])]
  refine ⟨_, rfl, ?_, ?_, ?_, ?_⟩
  · split <;> simp
  · simp
  · split <;> simp
  · split <;> simp

theorem run_single (fuel : Nat) (T : ThreadId) (L : MutexId) :
    ∀ (ops : List Op) (s : State) (c : Nat),
      Quiet s T L →
      ((s.mutexes L).lockedByThread = none ∨ (s.mutexes L).lockedByThread = some T) →
      (c = 0 → (s.mutexes L).lockedByThread = none) →
      (s.mutexes L).numberOfLocks = c % UINT_MOD →
      (∀ o ∈ ops, o ≠ Op.tryLock) →
      (∀ k, (ops.take k).count Op.unlock ≤ c + (ops.take k).count Op.lock) →
      ∃ es s', run fuel (ops.map fun o => ⟨T, o, L⟩) s = some (es, s') ∧
        (∀ e ∈ es, e.call.op = Op.lock → e.result = some true) ∧
        (s'.mutexes L).numberOfLocks
          = (c + ops.count Op.lock - ops.count Op.unlock) % UINT_MOD ∧
        (c + ops.count Op.lock - ops.count Op.unlock = 0 →
          (s'.mutexes L).lockedByThread = none) := by
  intro ops
  induction ops with
  | nil =>
    intro s c _ _ h0 hn _ _
    exact ⟨[], s, rfl, by simp, by simpa using hn, by simpa using h0⟩
  | cons o ops ih =>
    intro s c hq ho h0 hn hops hbal
    have hops' : ∀ o ∈ ops, o ≠ Op.tryLock := fun o ho => hops o (List.mem_cons_of_mem _ ho)
    cases o with
    | tryLock => exact absurd rfl (hops Op.tryLock (List.mem_cons_self _ _))
    | lock =>
      obtain ⟨s1, hs1, hq1, ho1, hn1, _⟩ := lock_of_free_or_own fuel T L s hq ho
      have hbal' : ∀ k, (ops.take k).count Op.unlock ≤ (c + 1) + (ops.take k).count Op.lock := by
        intro k
        have := hbal (k + 1)
        simp at this
        omega
      obtain ⟨es, s', hrun, hres, hcnt, hown⟩ :=
        ih s1 (c + 1) hq1 (Or.inr ho1) (by simp) (by rw [hn1, hn, uincr_mod]) hops' hbal'
      refine ⟨⟨⟨T, Op.lock, L⟩, some true⟩ :: es, s', ?_, ?_, ?_, ?_⟩
      · simp [run, exec, hs1, hrun]
      · intro e he
        rcases List.mem_cons.1 he with rfl | he
        · intro _; rfl
        · exact hres e he
      · rw [hcnt]; simp; congr 1; omega
      · intro h; apply hown; simp at h ⊢; omega
    | unlock =>
      have hc : 0 < c := by
        have := hbal 1
        simp at this
        omega
      obtain ⟨s1, hs1, ht1, hl1, ho1, hn1⟩ := unlock_of_quiet T L s hq.2
      have hbal' : ∀ k, (ops.take k).count Op.unlock ≤ (c - 1) + (ops.take k).count Op.lock := by
        intro k
        have := hbal (k + 1)
        simp at this
        omega
      obtain ⟨es, s', hrun, hres, hcnt, hown⟩ :=
        ih s1 (c - 1) ⟨by rw [ht1]; exact hq.1, hl1⟩ (Or.inl ho1) (fun _ => ho1)
          (by rw [hn1, hn, udecr_mod c hc]) hops' hbal'
      have hlen := hbal' ops.length
      simp at hlen
      refine ⟨⟨⟨T, Op.unlock, L⟩, none⟩ :: es, s', ?_, ?_, ?_, ?_⟩
      · simp [run, exec, hs1, hrun]
      · intro e he
        rcases List.mem_cons.1 he with rfl | he
        · intro h; cases h
        · exact hres e he
      · rw [hcnt]; simp; congr 1; omega
      · intro h; apply hown; simp at h ⊢; omega

/-- Thread `T` locks the initially free mutex `L` `N` times in a row. -/
theorem run_replicate_lock (fuel : Nat) (T : ThreadId) (L : MutexId) (N : Nat) :
    ∃ es s,
      run fuel ((List.replicate N Op.lock).map fun o => ⟨T, o, L⟩) State.init
        = some (es, s) ∧
      (∀ e ∈ es, e.call.op = Op.lock → e.result = some true) ∧
      (List.replicate N Op.lock).count Op.lock
        - (List.replicate N Op.lock).count Op.unlock = N ∧
      LiveMutex.numOfLocks L s = N % UINT_MOD ∧
      LiveMutex.isLocked L s = decide (0 < N % UINT_MOD) := by
  have hc : (List.replicate N Op.lock).count Op.lock
      - (List.replicate N Op.lock).count Op.unlock = N := by
    simp [List.count_replicate]
  obtain ⟨es, s, hrun, hres, hcnt, _⟩ :=
    run_single fuel T L (List.replicate N Op.lock) State.init 0
      ⟨rfl, rfl⟩ (Or.inl rfl) (fun _ => rfl) rfl
      (fun o ho => by rw [List.eq_of_mem_replicate ho]; decide)
      (fun k => by simp [List.take_replicate, List.count_replicate])
  rw [Nat.zero_add, hc] at hcnt
  exact ⟨es, s, hrun, hres, hc, hcnt, by simp [LiveMutex.isLocked, hcnt]⟩

/-- A statement executed by thread `t` leaves the frames of the other threads alone. -/
theorem lockStep_frames_of_ne (t u : ThreadId) (c : Config) (h : u ≠ t) :
    (lockStep t c).frames u = c.frames u := by
  unfold lockStep
  simp only []
  split <;> (repeat' split) <;> simp [Config.goto, Config.setFrame, h]

/-- A schedule leaves the frame of a thread that does not move alone. -/
theorem schedule_frames_of_not_mem (u : ThreadId) :
    ∀ (σ : List ThreadId) (c : Config), u ∉ σ → (schedule σ c).frames u = c.frames u := by
  intro σ
  induction σ with
  | nil => intro c _; rfl
  | cons t σ ih =>
    intro c h
    rw [schedule, ih _ (fun hm => h (List.mem_cons_of_mem _ hm)),
      lockStep_frames_of_ne t u c (fun e => h (e ▸ List.mem_cons_self _ _))]

/-- A thread that is not inside `lock` does nothing. -/
theorem lockStep_of_idle (t : ThreadId) (c : Config) (h : (c.frames t).pc = Pc.idle) :
    lockStep t c = c := by
  unfold lockStep
  simp only [h]

/-- In the cross-acquire scenario only threads 0 and 1 are inside `lock`. -/
theorem crossConfig_idle (t : ThreadId) (h0 : t ≠ 0) (h1 : t ≠ 1) :
    (crossConfig.frames t).pc = Pc.idle := by
  simp [crossConfig, lockCall, Config.setFrame, h0, h1, Frame.idle]

/-- The cross-acquire scenario with the two calls one after the other, in either
order: both calls return `false`, in the call-by-call reading of `lock` and in
the statement-by-statement one. -/
theorem cross_acquire_sequential :
    (∃ es s, (∀ fuel, run (fuel + 1) [⟨0, .lock, 1⟩, ⟨1, .lock, 0⟩] crossState = some (es, s)) ∧
      es.map (fun e => e.result) = [some false, some false]) ∧
    (∃ es s, (∀ fuel, run (fuel + 1) [⟨1, .lock, 0⟩, ⟨0, .lock, 1⟩] crossState = some (es, s)) ∧
      es.map (fun e => e.result) = [some false, some false]) ∧
    (schedule (List.replicate 18 0 ++ List.replicate 18 1) crossConfig).returned? 0
      = some false ∧
    (schedule (List.replicate 18 0 ++ List.replicate 18 1) crossConfig).returned? 1
      = some false ∧
    (schedule (List.replicate 18 1 ++ List.replicate 18 0) crossConfig).returned? 0
      = some false ∧
    (schedule (List.replicate 18 1 ++ List.replicate 18 0) crossConfig).returned? 1
      = some false :=
  ⟨⟨_, _, fun _ => rfl, by decide⟩, ⟨_, _, fun _ => rfl, by decide⟩,
    by decide, by decide, by decide, by decide⟩

/-- Two thread records with the same fields are equal. -/
theorem threadData_eq_of_fields (a b : ThreadData) (h1 : a.locked = b.locked)
    (h2 : a.lockedMutextes = b.lockedMutextes) (h3 : a.blockedByMutex = b.blockedByMutex) :
    a = b := by
  cases a; cases b; simp_all

/-- Two mutex objects with the same fields are equal. -/
theorem liveMutex_eq_of_fields (a b : LiveMutex) (h1 : a.locked = b.locked)
    (h2 : a.lockedByThread = b.lockedByThread) (h3 : a.numberOfLocks = b.numberOfLocks) :
    a = b := by
  cases a; cases b; simp_all

/-- Two memories with the same thread records and the same mutexes are equal. -/
theorem state_eq_of_fields (s s' : State) (h1 : ∀ i, s'.threads i = s.threads i)
    (h2 : ∀ j, s'.mutexes j = s.mutexes j) : s' = s := by
  cases s; cases s'
  simp only [State.mk.injEq]
  exact ⟨funext h1, funext h2⟩

/-- With no micro-spinlock set, `lock` called by a thread whose `lockedMutextes`
is at least 1 on a mutex owned by another thread `U` that is not blocked on
that very mutex returns `false` within two iterations of the traversal loop and
leaves the memory as it was. -/
theorem lock_refuses (fuel : Nat) (self U : ThreadId) (L : MutexId) (s : State)
    (hq : AllQuiet s) (hlm : 1 ≤ (s.threads self).lockedMutextes)
    (ho : (s.mutexes L).lockedByThread = some U) (hU : U ≠ self)
    (hb : (s.threads U).blockedByMutex ≠ some L) :
    LiveMutex.lock (fuel + 2) self L s = .returned false s := by
  obtain ⟨hT, hM⟩ := hq
  have hlm' : (s.threads self).lockedMutextes ≠ 0 := by omega
  have hfin : ∀ (M : MutexId) (X : State),
      (∀ i, (X.threads i).lockedMutextes = (s.threads i).lockedMutextes ∧
        (X.threads i).blockedByMutex = (s.threads i).blockedByMutex) →
      (∀ j, (X.mutexes j).lockedByThread = (s.mutexes j).lockedByThread ∧
        (X.mutexes j).numberOfLocks = (s.mutexes j).numberOfLocks) →
      (∀ i, i ≠ self → i ≠ U → (X.threads i).locked = false) →
      (∀ j, j ≠ M → (X.mutexes j).locked = false) →
      LiveMutex.giveUp self M U X = s := by
    intro M X h1 h2 h3 h4
    apply state_eq_of_fields
    · intro i
      apply threadData_eq_of_fields
      · simp only [LiveMutex.giveUp, locked_setThreadLocked, threads_setLocked, hT]
        split
        · rfl
        · split
          · rfl
          · rename_i ha hb'; exact h3 i ha hb'
      · simp [LiveMutex.giveUp, (h1 i).1]
      · simp [LiveMutex.giveUp, (h1 i).2]
    · intro j
      apply liveMutex_eq_of_fields
      · simp only [LiveMutex.giveUp, mutexes_setThreadLocked, locked_setLocked, hM]
        split
        · rfl
        · rename_i ha; exact h4 j ha
      · simp [LiveMutex.giveUp, (h2 j).1]
      · simp [LiveMutex.giveUp, (h2 j).2]
  have hUs : (s.threads U).locked = false := hT U
  unfold LiveMutex.lock
  rw [if_neg (by simp [hT self])]
  simp only []
  rw [if_neg (by simp [hM L])]
  simp only [lockedByThread_setLocked, mutexes_setThreadLocked, ho, if_neg hU,
    lockedMutextes_setThreadLocked, threads_setLocked, if_neg hlm']
  unfold LiveMutex.traverse
  simp only [lockedByThread_setLocked, mutexes_setThreadLocked, ho, List.not_mem_nil,
    if_false, locked_setThreadLocked, threads_setLocked, if_neg hU, hUs, ne_eq,
    not_true_eq_false, Bool.false_eq_true, blockedByMutex_setThreadLocked]
  cases hbm : (s.threads U).blockedByMutex with
  | none =>
    simp only []
    congr 1
    apply hfin
    · intro i; simp
    · intro j; simp
    · intro i hi hi'; simp [hi, hi', hT i]
    · intro j hj; simp [hj, hM j]
  | some M =>
    have hML : M ≠ L := fun e => hb (by rw [hbm, e])
    simp only [locked_setLocked, mutexes_setThreadLocked, if_neg hML, hM M,
      Bool.false_eq_true, if_false]
    cases hown : (s.mutexes M).lockedByThread with
    | none =>
      simp only []
      congr 1
      apply hfin
      · intro i; simp
      · intro j; simp
      · intro i hi hi'; simp [hi, hi', hT i]
      · intro j hj; simp [hj, hM j]
    | some V =>
      simp only []
      unfold LiveMutex.traverse
      simp only [lockedByThread_setLocked, mutexes_setThreadLocked, ho, List.mem_singleton,
        if_true]
      congr 1
      apply hfin
      · intro i; simp
      · intro j; simp
      · intro i hi hi'; simp [hi, hi', hT i]
      · intro j hj; simp [hj, hM j]

/-- Line 128, the head of the body of the outer loop of `lock`, is reached only
from line 124 (or by busy-waiting at line 128 itself): the body is not entered
a second time. -/
theorem line128_only_from_line124 (t : ThreadId) (c : Config)
    (h : ((lockStep t c).frames t).pc = Pc.l128) :
    (c.frames t).pc = Pc.l124 ∨ (c.frames t).pc = Pc.l128 := by
  revert h
  unfold lockStep
  simp only []
  split <;> (repeat' split) <;> simp_all [Config.goto, Config.setFrame]

/-- The memory `crossState` has no micro-spinlock set. -/
theorem allQuiet_crossState : AllQuiet crossState := by
  constructor
  · intro t
    simp only [crossState]
    split <;> rfl
  · intro m
    simp only [crossState]
    split
    · rfl
    · split <;> rfl

/-- The memory `heldState` has no micro-spinlock set. -/
theorem allQuiet_heldState : AllQuiet heldState := by
  constructor
  · intro t
    simp only [heldState]
    split <;> rfl
  · intro m
    simp only [heldState]
    split <;> rfl

/-- Whenever `tryLock` or `lock` returns `false`, the owner and `numOfLocks` of
the mutex are the same after the call as before it; and `tryLock` returns
`false` where the mutex is owned by a thread other than the caller and neither
the micro-spinlock of the caller's thread record nor that of the mutex is
set. -/
theorem failure_keeps_owner_and_count (fuel : Nat) (self : ThreadId) (this : MutexId)
    (s : State) :
    (∀ s', LiveMutex.tryLock self this s = .returned false s' →
      (s'.mutexes this).lockedByThread = (s.mutexes this).lockedByThread ∧
        LiveMutex.numOfLocks this s' = LiveMutex.numOfLocks this s) ∧
    (∀ s', LiveMutex.lock fuel self this s = .returned false s' →
      (s'.mutexes this).lockedByThread = (s.mutexes this).lockedByThread ∧
        LiveMutex.numOfLocks this s' = LiveMutex.numOfLocks this s) ∧
    (∀ u, (s.mutexes this).lockedByThread = some u → u ≠ self → Quiet s self this →
      ∃ s', LiveMutex.tryLock self this s = .returned false s') := by
  refine ⟨fun s' h => tryLock_sameLocks self this s s' h this,
    fun s' h => lock_sameLocks fuel self this s s' h this, ?_⟩
  intro u ho hu hq
  unfold LiveMutex.tryLock
  rw [if_neg (by simp [hq.1]), if_neg (by simp [hq.2])]
  simp only [lockedByThread_setLocked, mutexes_setThreadLocked, ho, if_neg hu]
  exact ⟨_, rfl⟩

/-- In the cross-acquire memory `tryLock` and `lock` called by
thread 0 on mutex 1, owned by thread 1, both return `false` and leave the owner
and the depth of mutex 1 as they were. -/
theorem failure_keeps_owner_and_count_crossState :
    (∃ s', LiveMutex.tryLock 0 1 crossState = .returned false s' ∧
      (s'.mutexes 1).lockedByThread = some 1 ∧ LiveMutex.numOfLocks 1 s' = 1) ∧
    (∃ s', LiveMutex.lock 2 0 1 crossState = .returned false s' ∧
      (s'.mutexes 1).lockedByThread = some 1 ∧ LiveMutex.numOfLocks 1 s' = 1) := by
  have key := failure_keeps_owner_and_count 2 0 1 crossState
  constructor
  · obtain ⟨s', hs'⟩ := key.2.2 1 rfl (by decide) (by decide)
    exact ⟨s', hs', key.1 s' hs'⟩
  · exact ⟨_, rfl, key.2.1 _ rfl⟩

/-! ## Theorems -/

/-- C1, refuted on the code: thread 0 locks mutex 0 twice and unlocks it once.
It then has two successful acquisitions and one release, but `unlock` has
cleared `lockedByThread`, and both `tryLock` and `lock` called by thread 1 on
that mutex return `true`. -/
theorem C1_partial_release_admits_other_thread :
    ∃ es s,
      (∀ fuel, run fuel [⟨0, .lock, 0⟩, ⟨0, .lock, 0⟩, ⟨0, .unlock, 0⟩] State.init
        = some (es, s)) ∧
      disciplined [] es = true ∧
      releases es 0 0 < acquisitions es 0 0 ∧
      (s.mutexes 0).lockedByThread = none ∧ (s.mutexes 0).numberOfLocks = 1 ∧
      (LiveMutex.tryLock 1 0 s).value? = some true ∧
      (∀ fuel, (LiveMutex.lock fuel 1 0 s).value? = some true) :=
  ⟨_, _, fun _ => rfl, by decide, by decide, by decide, by decide, by decide, fun _ => rfl⟩

/-- C2, refuted on the code: in the cross-acquire scenario let each thread execute
line 124 (it sets the micro-spinlock of its own thread record) before the other
goes on.  Both calls then reach line 195, where thread 0 busy-waits for the
micro-spinlock of thread 1 and thread 1 for that of thread 0.  Whatever the
schedule from there on, neither call returns. -/
theorem C2_cross_acquire_can_deadlock_on_spinlocks :
    ∃ c, c = schedule ([0, 1] ++ List.replicate 8 0 ++ List.replicate 8 1) crossConfig ∧
      (c.frames 0).pc = Pc.l195 ∧ (c.frames 1).pc = Pc.l195 ∧
      (c.frames 0).nextThread = some 1 ∧ (c.frames 1).nextThread = some 0 ∧
      (c.mem.threads 0).locked = true ∧ (c.mem.threads 1).locked = true ∧
      ∀ σ, (schedule σ c).returned? 0 = none ∧ (schedule σ c).returned? 1 = none := by
  refine ⟨_, rfl, by decide, by decide, by decide, by decide, by decide, by decide, ?_⟩
  have hstep : ∀ t, lockStep t
      (schedule ([0, 1] ++ List.replicate 8 0 ++ List.replicate 8 1) crossConfig)
      = schedule ([0, 1] ++ List.replicate 8 0 ++ List.replicate 8 1) crossConfig := by
    intro t
    by_cases h0 : t = 0
    · subst h0; rfl
    · by_cases h1 : t = 1
      · subst h1; rfl
      · apply lockStep_of_idle
        rw [schedule_frames_of_not_mem t _ _ (by simp [h0, h1])]
        exact crossConfig_idle t h0 h1
  have hall : ∀ σ, schedule σ
      (schedule ([0, 1] ++ List.replicate 8 0 ++ List.replicate 8 1) crossConfig)
      = schedule ([0, 1] ++ List.replicate 8 0 ++ List.replicate 8 1) crossConfig := by
    intro σ
    induction σ with
    | nil => rfl
    | cons t σ ih => rw [schedule, hstep t, ih]
  intro σ
  rw [hall σ]
  exact ⟨by decide, by decide⟩

/-- C3, refuted on the code: thread 0 owns mutex 0 and thread 1 owns mutex 1,
nobody is blocked.  `lock` called by thread 0 on mutex 1 returns `false`, although
the wait-for chain from the owner of mutex 1 ends at once at a thread that is
not blocked and revisits no thread record. -/
theorem C3_lock_refuses_without_cycle :
    ∃ es s,
      (∀ fuel, run fuel [⟨0, .lock, 0⟩, ⟨1, .lock, 1⟩] State.init = some (es, s)) ∧
      (s.mutexes 1).lockedByThread = some 1 ∧
      (s.threads 1).blockedByMutex = none ∧
      (∀ n, cycleDetected s n 1 = false) ∧
      (∀ fuel, (LiveMutex.lock (fuel + 1) 0 1 s).value? = some false) :=
  ⟨_, _, fun _ => rfl, by decide, by decide,
    fun n => by cases n <;> rfl, fun _ => rfl⟩

/-- C4, refuted on the code: thread 0 locks mutex 0 twice and unlocks it twice, so
it holds nothing, yet its `lockedMutextes` is 1.  Thread 1 then locks mutex 1,
and `lock` called by thread 0 on mutex 1 returns `false`. -/
theorem C4_lock_refuses_thread_holding_nothing :
    ∃ es s,
      (∀ fuel, run fuel
        [⟨0, .lock, 0⟩, ⟨0, .lock, 0⟩, ⟨0, .unlock, 0⟩, ⟨0, .unlock, 0⟩, ⟨1, .lock, 1⟩]
        State.init = some (es, s)) ∧
      disciplined [] es = true ∧
      (∀ m, releases es 0 m = acquisitions es 0 m) ∧
      (s.mutexes 1).lockedByThread = some 1 ∧
      (s.threads 0).lockedMutextes = 1 ∧
      (∀ fuel, (LiveMutex.lock (fuel + 1) 0 1 s).value? = some false) := by
  refine ⟨_, _, fun _ => rfl, by decide, ?_, by decide, by decide, fun _ => rfl⟩
  intro m
  by_cases h : m = 0
  · subst h; decide
  · simp [releases, acquisitions, List.filter, Ne.symm h]

/-- C5, refuted on the code: on a freshly constructed (free) mutex `tryLock`
returns `true` and makes the caller the owner, but `numOfLocks` is 0 afterwards
as it was before, not one more, and `isLocked` is `false`. -/
theorem C5_tryLock_on_free_mutex_keeps_count :
    (State.init.mutexes 0).lockedByThread = none ∧
    LiveMutex.numOfLocks 0 State.init = 0 ∧
    ∃ s, LiveMutex.tryLock 0 0 State.init = .returned true s ∧
      (s.mutexes 0).lockedByThread = some 0 ∧
      LiveMutex.numOfLocks 0 s = 0 ∧
      LiveMutex.isLocked 0 s = false :=
  ⟨rfl, rfl, _, rfl, by decide, by decide, by decide⟩

/-- C6, refuted on the code: thread 0 owns mutex 0 with depth 2.  `unlock` leaves
depth 1 and `lockedMutextes` unchanged, but the owner is `none` afterwards, not
thread 0. -/
theorem C6_unlock_clears_owner_at_depth_two :
    ∃ es s s',
      (∀ fuel, run fuel [⟨0, .lock, 0⟩, ⟨0, .lock, 0⟩] State.init = some (es, s)) ∧
      (s.mutexes 0).lockedByThread = some 0 ∧
      (s.mutexes 0).numberOfLocks = 2 ∧
      LiveMutex.unlock 0 0 s = .returned () s' ∧
      (s'.mutexes 0).numberOfLocks = 1 ∧
      (s'.threads 0).lockedMutextes = (s.threads 0).lockedMutextes ∧
      (s'.mutexes 0).lockedByThread = none :=
  ⟨_, _, _, fun _ => rfl, by decide, by decide, rfl, by decide, by decide, by decide⟩

/-- C7, refuted as stated: after 4294967296 `lock` calls by thread 0 on the
initially free mutex 0 (every one returns `true`, none is released), the
`unsigned int` counter has wrapped: `numOfLocks` is 0, not 4294967296, and
`isLocked` is `false` although the net number of acquisitions is positive. -/
theorem C7_counter_wraps :
    ∃ es s,
      run 2 ((List.replicate 4294967296 Op.lock).map fun o => ⟨0, o, 0⟩) State.init
        = some (es, s) ∧
      (∀ e ∈ es, e.call.op = Op.lock → e.result = some true) ∧
      (List.replicate 4294967296 Op.lock).count Op.lock
        - (List.replicate 4294967296 Op.lock).count Op.unlock = 4294967296 ∧
      LiveMutex.numOfLocks 0 s = 0 ∧
      LiveMutex.isLocked 0 s = false := by
  obtain ⟨es, s, hrun, hres, hcnt, hn, hl⟩ := run_replicate_lock 2 0 0 4294967296
  exact ⟨es, s, hrun, hres, hcnt, hn.trans (by decide), hl.trans (by decide)⟩

/-- C7 as amended: for every sequence of `lock` and `unlock` calls by one thread
on one initially free mutex in which every initial segment has at least as many
`lock` as `unlock` calls, after each call every `lock` so far has returned
`true`, `numOfLocks` is the net number of acquisitions modulo 2^32, `isLocked`
holds exactly when that residue is positive, and the owner is `none` when the
net number is 0; so `numOfLocks` is the net number itself as long as that is
below 2^32. -/
theorem C7_single_thread_counting (fuel : Nat) (T : ThreadId) (L : MutexId)
    (ops : List Op) (hops : ∀ o ∈ ops, o ≠ Op.tryLock)
    (hbal : ∀ k, (ops.take k).count Op.unlock ≤ (ops.take k).count Op.lock) (k : Nat) :
    ∃ es s,
      run fuel ((ops.take k).map fun o => ⟨T, o, L⟩) State.init = some (es, s) ∧
      (∀ e ∈ es, e.call.op = Op.lock → e.result = some true) ∧
      LiveMutex.numOfLocks L s
        = ((ops.take k).count Op.lock - (ops.take k).count Op.unlock) % UINT_MOD ∧
      (LiveMutex.isLocked L s = true ↔
        0 < ((ops.take k).count Op.lock - (ops.take k).count Op.unlock) % UINT_MOD) ∧
      ((ops.take k).count Op.lock - (ops.take k).count Op.unlock = 0 →
        (s.mutexes L).lockedByThread = none) ∧
      ((ops.take k).count Op.lock - (ops.take k).count Op.unlock < UINT_MOD →
        LiveMutex.numOfLocks L s
            = (ops.take k).count Op.lock - (ops.take k).count Op.unlock ∧
          (LiveMutex.isLocked L s = true ↔
            0 < (ops.take k).count Op.lock - (ops.take k).count Op.unlock)) := by
  obtain ⟨es, s, hrun, hres, hcnt, hown⟩ :=
    run_single fuel T L (ops.take k) State.init 0 ⟨rfl, rfl⟩ (Or.inl rfl) (fun _ => rfl) rfl
      (fun o ho => hops o (List.mem_of_mem_take ho))
      (fun j => by
        have := hbal (min j k)
        rw [List.take_take]
        omega)
  simp only [Nat.zero_add] at hcnt hown
  have hlock : LiveMutex.isLocked L s = true ↔ 0 < (s.mutexes L).numberOfLocks := by
    simp [LiveMutex.isLocked]
  refine ⟨es, s, hrun, hres, hcnt, by rw [hlock, hcnt], hown, fun hlt => ?_⟩
  rw [hlock, LiveMutex.numOfLocks, hcnt, Nat.mod_eq_of_lt hlt]
  exact ⟨rfl, Iff.rfl⟩

/-- Witness of C7: the scenario of the specification.  Thread 0 locks the free
mutex 0 twice and unlocks it twice; after the second call `numOfLocks` is 2,
after the fourth the mutex is free. -/
theorem C7_single_thread_counting_witness :
    (∃ es s, run 2 [⟨0, .lock, 0⟩, ⟨0, .lock, 0⟩] State.init = some (es, s) ∧
      LiveMutex.numOfLocks 0 s = 2 ∧ LiveMutex.isLocked 0 s = true) ∧
    (∃ es s,
      run 2 [⟨0, .lock, 0⟩, ⟨0, .lock, 0⟩, ⟨0, .unlock, 0⟩, ⟨0, .unlock, 0⟩] State.init
        = some (es, s) ∧
      LiveMutex.numOfLocks 0 s = 0 ∧ LiveMutex.isLocked 0 s = false ∧
      (s.mutexes 0).lockedByThread = none) := by
  have hops : ∀ o ∈ [Op.lock, Op.lock, Op.unlock, Op.unlock], o ≠ Op.tryLock := by decide
  have hbal : ∀ k, ([Op.lock, Op.lock, Op.unlock, Op.unlock].take k).count Op.unlock
      ≤ ([Op.lock, Op.lock, Op.unlock, Op.unlock].take k).count Op.lock := by
    intro k
    rcases k with _ | _ | _ | _ | k <;> simp
  constructor
  · obtain ⟨es, s, hrun, _, hn, hl, _, _⟩ :=
      C7_single_thread_counting 2 0 0 [Op.lock, Op.lock, Op.unlock, Op.unlock] hops hbal 2
    exact ⟨es, s, hrun, by simpa [UINT_MOD] using hn, by simpa [UINT_MOD] using hl⟩
  · obtain ⟨es, s, hrun, _, hn, hl, ho, _⟩ :=
      C7_single_thread_counting 2 0 0 [Op.lock, Op.lock, Op.unlock, Op.unlock] hops hbal 4
    refine ⟨es, s, hrun, by simpa [UINT_MOD] using hn, ?_, ho (by simp)⟩
    cases h : LiveMutex.isLocked 0 s
    · rfl
    · exact absurd (hl.1 h) (by simp)

/-- C8, refuted on the code: thread 0 has called `tryLock` on the free mutex 0, which
returned `true` and, missing the release that the two other branches of
`tryLock` perform, left the micro-spinlock of its thread record set; thread 1
has locked mutex 1.  Mutex 1 is now owned by a thread other than thread 0, yet
`tryLock` called by thread 0 on mutex 1 does not return `false`: it busy-waits
for ever at line 86. -/
theorem C8_tryLock_spins_instead_of_failing :
    ∃ es s,
      (∀ fuel, run fuel [⟨0, .tryLock, 0⟩, ⟨1, .lock, 1⟩] State.init = some (es, s)) ∧
      (s.mutexes 1).lockedByThread = some 1 ∧
      (s.threads 0).locked = true ∧
      (LiveMutex.tryLock 0 1 s).isSpin = true ∧
      (LiveMutex.tryLock 0 1 s).value? ≠ some false :=
  ⟨_, _, fun _ => rfl, by decide, by decide, by decide, by decide⟩

/-- C9, refuted on the code: the invariant `numberOfLocks > 0 ⇔ lockedByThread ≠ nullptr`
holds for a fresh mutex, but `tryLock` on the fresh mutex leaves an owner with
depth 0, and `unlock` by the owner at depth 2 leaves depth 1 without owner. -/
theorem C9_lock_invariant_broken :
    LockInvariant State.init 0 ∧
    (∃ s, LiveMutex.tryLock 0 0 State.init = .returned true s ∧ ¬ LockInvariant s 0) ∧
    (∃ es s s',
      (∀ fuel, run fuel [⟨0, .lock, 0⟩, ⟨0, .lock, 0⟩] State.init = some (es, s)) ∧
      LockInvariant s 0 ∧
      (s.mutexes 0).lockedByThread = some 0 ∧
      0 < (s.mutexes 0).numberOfLocks ∧
      LiveMutex.unlock 0 0 s = .returned () s' ∧ ¬ LockInvariant s' 0) :=
  ⟨by decide, ⟨_, rfl, by decide⟩,
    ⟨_, _, _, fun _ => rfl, by decide, by decide, by decide, rfl, by decide⟩⟩

/-- C10, refuted on the code: thread 0 locks mutex 0 twice and unlocks it twice.
It has released everything it acquired and mutex 0 is free with depth 0, but
its `lockedMutextes` is 1, not 0. -/
theorem C10_lockedMutextes_not_zero_after_release :
    ∃ es s,
      (∀ fuel, run fuel
        [⟨0, .lock, 0⟩, ⟨0, .lock, 0⟩, ⟨0, .unlock, 0⟩, ⟨0, .unlock, 0⟩]
        State.init = some (es, s)) ∧
      disciplined [] es = true ∧
      (∀ m, releases es 0 m = acquisitions es 0 m) ∧
      (s.mutexes 0).lockedByThread = none ∧
      (s.mutexes 0).numberOfLocks = 0 ∧
      (s.threads 0).lockedMutextes = 1 := by
  refine ⟨_, _, fun _ => rfl, by decide, ?_, by decide, by decide, by decide⟩
  intro m
  by_cases h : m = 0
  · subst h; decide
  · simp [releases, acquisitions, List.filter, Ne.symm h]

/-- C11: the scoped guard.  Construction in blocking mode (`tryBlock` true) returns
exactly when `lock` returns, and in non-blocking mode exactly when `tryLock`
returns, in the memory that call left; `hasLocked` is the boolean that call
returned.  Destruction of a guard whose `hasLocked` is `true` is one call of
`unlock`; destruction of one whose `hasLocked` is `false` returns at once and
leaves the memory untouched. -/
theorem C11_guard_contract (fuel : Nat) (self : ThreadId) (m : MutexId) (s : State) :
    (∀ g s', LiveMutexLocker.new fuel self m true s = .returned g s' ↔
      (LiveMutex.lock fuel self m s = .returned g.hasLocked s' ∧ g.liveMutex = m)) ∧
    (∀ g s', LiveMutexLocker.new fuel self m false s = .returned g s' ↔
      (LiveMutex.tryLock self m s = .returned g.hasLocked s' ∧ g.liveMutex = m)) ∧
    (∀ g : LiveMutexLocker, g.hasLocked = true →
      LiveMutexLocker.delete self g s = LiveMutex.unlock self g.liveMutex s) ∧
    (∀ g : LiveMutexLocker, g.hasLocked = false →
      LiveMutexLocker.delete self g s = .returned () s) := by
  refine ⟨?_, ?_, ?_, ?_⟩
  · intro g s'
    obtain ⟨gm, gl⟩ := g
    simp only [LiveMutexLocker.new, LiveMutexLocker.hasLocked, if_true]
    cases h : LiveMutex.lock fuel self m s with
    | returned b s1 =>
      simp only [Outcome.returned.injEq, LiveMutexLocker.mk.injEq]
      constructor
      · rintro ⟨⟨h1, h2⟩, h3⟩; exact ⟨⟨h2, h3⟩, h1.symm⟩
      · rintro ⟨⟨h2, h3⟩, h1⟩; exact ⟨⟨h1.symm, h2⟩, h3⟩
    | spins s1 => simp
    | outOfFuel => simp
  · intro g s'
    obtain ⟨gm, gl⟩ := g
    simp only [LiveMutexLocker.new, LiveMutexLocker.hasLocked, Bool.false_eq_true, if_false]
    cases h : LiveMutex.tryLock self m s with
    | returned b s1 =>
      simp only [Outcome.returned.injEq, LiveMutexLocker.mk.injEq]
      constructor
      · rintro ⟨⟨h1, h2⟩, h3⟩; exact ⟨⟨h2, h3⟩, h1.symm⟩
      · rintro ⟨⟨h2, h3⟩, h1⟩; exact ⟨⟨h1.symm, h2⟩, h3⟩
    | spins s1 => simp
    | outOfFuel => simp
  · intro g hg
    simp only [LiveMutexLocker.hasLocked] at hg
    simp only [LiveMutexLocker.delete, hg, if_true]
  · intro g hg
    simp only [LiveMutexLocker.hasLocked] at hg
    simp only [LiveMutexLocker.delete, hg, Bool.false_eq_true, if_false]

/-- Witness of C11, in the cross-acquire memory: a blocking guard of thread 0 on
mutex 0, which thread 0 owns, has locked and its destruction is a call of
`unlock`; a non-blocking guard of thread 0 on mutex 1, owned by thread 1, has
not locked and its destruction leaves the memory untouched. -/
theorem C11_guard_contract_witness :
    (∃ g s', LiveMutexLocker.new 2 0 0 true crossState = .returned g s' ∧
      g.hasLocked = true ∧
      LiveMutexLocker.delete 0 g s' = LiveMutex.unlock 0 g.liveMutex s') ∧
    (∃ g s', LiveMutexLocker.new 2 0 1 false crossState = .returned g s' ∧
      g.hasLocked = false ∧
      LiveMutexLocker.delete 0 g s' = .returned () s') := by
  constructor
  · obtain ⟨s', hs'⟩ : ∃ s', LiveMutex.lock 2 0 0 crossState = .returned true s' := ⟨_, rfl⟩
    have h := ((C11_guard_contract 2 0 0 crossState).1 ⟨0, true⟩ s').2 ⟨hs', rfl⟩
    exact ⟨_, s', h, rfl, (C11_guard_contract 2 0 0 s').2.2.1 _ rfl⟩
  · obtain ⟨s', hs'⟩ : ∃ s', LiveMutex.tryLock 0 1 crossState = .returned false s' := ⟨_, rfl⟩
    have h := ((C11_guard_contract 2 0 1 crossState).2.1 ⟨1, false⟩ s').2 ⟨hs', rfl⟩
    exact ⟨_, s', h, rfl, (C11_guard_contract 2 0 1 s').2.2.2 _ rfl⟩

/-- C12, refuted on the code: (a) in a memory where mutex 0 is free with depth 0,
no micro-spinlock is set and `blockedByMutex` of thread 0 names mutex 1, `lock`
called by thread 0 on mutex 0 returns `true` with owner thread 0, depth 1 and
`lockedMutextes` one more, but `blockedByMutex` still names mutex 1; (b) after
`tryLock` by thread 0 on the free mutex 0, which leaves the micro-spinlock of
its thread record set, `lock` called by thread 0 on the free mutex 1 does not
return at all. -/
theorem C12_lock_on_free_mutex_keeps_blockedByMutex :
    ((staleState.mutexes 0).lockedByThread = none ∧
      (staleState.mutexes 0).numberOfLocks = 0 ∧
      Quiet staleState 0 0 ∧
      (staleState.threads 0).blockedByMutex = some 1 ∧
      ∀ fuel, ∃ s', LiveMutex.lock fuel 0 0 staleState = .returned true s' ∧
        (s'.mutexes 0).lockedByThread = some 0 ∧
        (s'.mutexes 0).numberOfLocks = 1 ∧
        (s'.threads 0).lockedMutextes = (staleState.threads 0).lockedMutextes + 1 ∧
        (s'.threads 0).blockedByMutex = some 1) ∧
    (∃ es s,
      (∀ fuel, run fuel [⟨0, .tryLock, 0⟩] State.init = some (es, s)) ∧
      (s.mutexes 1).lockedByThread = none ∧
      (s.mutexes 1).numberOfLocks = 0 ∧
      ∀ fuel, (LiveMutex.lock fuel 0 1 s).isSpin = true) :=
  ⟨⟨by decide, by decide, by decide, by decide,
      fun _ => ⟨_, rfl, by decide, by decide, by decide, by decide⟩⟩,
    ⟨_, _, fun _ => rfl, by decide, by decide, fun _ => rfl⟩⟩

/-- C13, refuted on the code: on the initial memory, where no micro-spinlock is
set, `tryLock` by thread 0 on the free mutex 0 returns `true` and leaves the
micro-spinlock of the thread record of thread 0 set. -/
theorem C13_tryLock_leaves_thread_spinlock_set :
    Quiet State.init 0 0 ∧
    ∃ s', LiveMutex.tryLock 0 0 State.init = .returned true s' ∧
      (s'.threads 0).locked = true ∧
      (s'.mutexes 0).locked = false :=
  ⟨by decide, _, rfl, by decide, by decide⟩

/-- C14, refuted on the code: thread 1 owns mutex 0, thread 0 holds nothing and no
micro-spinlock is set.  `lock` called by thread 0 on mutex 0 busy-waits at line
154 for the owner to become `none` with the micro-spinlock of its own thread
record set (that of the mutex is released).  Statement by statement: once
thread 1 has unlocked the mutex, the call of thread 0 returns `true` and the
micro-spinlock of its thread record is still set. -/
theorem C14_lock_waits_and_returns_with_thread_spinlock_set :
    AllQuiet heldState ∧
    (heldState.threads 0).lockedMutextes = 0 ∧
    (heldState.mutexes 0).lockedByThread = some 1 ∧
    (∀ fuel, ∃ s', LiveMutex.lock fuel 0 0 heldState = .spins s' ∧
      (s'.mutexes 0).lockedByThread = some 1 ∧
      (s'.threads 0).locked = true ∧ (s'.mutexes 0).locked = false) ∧
    ∃ c c',
      c = schedule (List.replicate 6 0)
        (lockCall 0 0 { mem := heldState, frames := fun _ => Frame.idle }) ∧
      (c.frames 0).pc = Pc.l154 ∧
      lockStep 0 c = c ∧
      (c.mem.threads 0).locked = true ∧
      c' = schedule (List.replicate 8 0) (unlockBetween 1 0 c) ∧
      c'.returned? 0 = some true ∧
      (c'.mem.mutexes 0).lockedByThread = some 0 ∧
      (c'.mem.threads 0).locked = true :=
  ⟨allQuiet_heldState, by decide, by decide,
    fun _ => ⟨_, rfl, by decide, by decide, by decide⟩,
    _, _, rfl, by decide, rfl, by decide, rfl, by decide, by decide, by decide⟩

/-- C16: with no micro-spinlock set, `lock` called by a thread whose
`lockedMutextes` is at least 1 on a mutex owned by a different thread `U` whose
`blockedByMutex` is not that mutex returns `false` within two iterations of the
traversal loop, and the memory afterwards is the memory before: owner and depth
of every mutex, `lockedMutextes` and `blockedByMutex` of every thread record
are unchanged and no micro-spinlock is set.  Statement by statement, line 128
(the head of the body of the outer loop) is reached only from line 124. -/
theorem C16_holder_is_refused_at_once (fuel : Nat) (self U : ThreadId) (L : MutexId)
    (s : State) (hq : AllQuiet s) (hlm : 1 ≤ (s.threads self).lockedMutextes)
    (ho : (s.mutexes L).lockedByThread = some U) (hU : U ≠ self)
    (hb : (s.threads U).blockedByMutex ≠ some L) :
    LiveMutex.lock (fuel + 2) self L s = .returned false s ∧
    AllQuiet s ∧
    ∀ c : Config, ((lockStep self c).frames self).pc = Pc.l128 →
      (c.frames self).pc = Pc.l124 ∨ (c.frames self).pc = Pc.l128 :=
  ⟨lock_refuses fuel self U L s hq hlm ho hU hb, hq,
    fun c h => line128_only_from_line124 self c h⟩

/-- Witness of C16, in the cross-acquire memory: `lock` called by thread 0, which
owns mutex 0, on mutex 1, owned by thread 1, returns `false` with two units of
fuel and leaves the memory as it was. -/
theorem C16_holder_is_refused_at_once_witness :
    AllQuiet crossState ∧ 1 ≤ (crossState.threads 0).lockedMutextes ∧
    (crossState.mutexes 1).lockedByThread = some 1 ∧
    (crossState.threads 1).blockedByMutex ≠ some 1 ∧
    LiveMutex.lock 2 0 1 crossState = .returned false crossState :=
  ⟨allQuiet_crossState, by decide, by decide, by decide,
    (C16_holder_is_refused_at_once 0 0 1 1 crossState allQuiet_crossState (by decide)
      (by decide) (by decide) (by decide)).1⟩

/-- C17, refuted on the code: on the free mutex 0 of the initial memory a
non-blocking guard of thread 0 acquires through `tryLock`, which leaves
`numberOfLocks` at 0; its destruction calls `unlock`, whose `--numberOfLocks`
wraps around: afterwards `numOfLocks` is 4294967295 and `isLocked` is `true`,
with owner `none`.  A blocking guard leaves the mutex free with depth 0. -/
theorem C17_nonblocking_guard_round_trip_wraps :
    (State.init.mutexes 0).lockedByThread = none ∧
    LiveMutex.numOfLocks 0 State.init = 0 ∧
    (∃ g s1 s2,
      LiveMutexLocker.new 2 0 0 false State.init = .returned g s1 ∧
      g.hasLocked = true ∧
      LiveMutexLocker.delete 0 g s1 = .returned () s2 ∧
      LiveMutex.isLocked 0 s2 = true ∧
      LiveMutex.numOfLocks 0 s2 = 4294967295 ∧
      (s2.mutexes 0).lockedByThread = none) ∧
    (∃ g s1 s2,
      LiveMutexLocker.new 2 0 0 true State.init = .returned g s1 ∧
      g.hasLocked = true ∧
      LiveMutexLocker.delete 0 g s1 = .returned () s2 ∧
      LiveMutex.isLocked 0 s2 = false ∧
      LiveMutex.numOfLocks 0 s2 = 0 ∧
      (s2.mutexes 0).lockedByThread = none) :=
  ⟨rfl, rfl,
    ⟨_, _, _, rfl, by decide, rfl, by decide, by decide, by decide⟩,
    ⟨_, _, _, rfl, by decide, rfl, by decide, by decide, by decide⟩⟩

end Live
